import Mathlib

/-!
Shallow embedding of `fetch_subsidy.py` (subsidy-bot): a pipeline that
fetches government subsidy records from a paginated API, filters them to
the Yeoju locality, categorizes them by keyword, builds a JSON payload for
an HTML digest, optionally draws a thumbnail, and publishes to WordPress.

Records are Python dicts of string fields; absent fields are modelled as
`Option.none` (Python `dict.get` returning `None` / a default).
Side-effecting functions (network, file writes) are modelled as pure
functions of an explicit environment (transport oracles, capability
flags), returning records of their observable effects.
-/

namespace FetchSubsidy

/-- Holds when `needle` is an initial run of `hay` (character-by-character). -/
def charsLead : List Char → List Char → Bool
  | [], _ => true
  | _ :: _, [] => false
  | a :: as, b :: bs => a == b && charsLead as bs

/-- Tests whether `needle` occurs contiguously somewhere in `hay`. -/
def charsSub : List Char → List Char → Bool
  | needle, [] => charsLead needle []
  | needle, b :: bs => charsLead needle (b :: bs) || charsSub needle bs

/-- The Python substring test `needle in haystack` on strings. -/
def strIn (needle haystack : String) : Bool :=
  charsSub needle.data haystack.data

/-- The Python slice `s[:n]` on a string: the first `n` characters. -/
def pyTake (s : String) (n : Nat) : String :=
  String.mk (s.data.take n)

/-- One service record, as returned by the 보조금24 API.  Field names
romanize the Korean dict keys of the source:
`serviceName` = 서비스명, `orgName` = 소관기관명, `orgType` = 소관기관유형,
`target` = 지원대상, `content` = 지원내용, `method` = 신청방법,
`period` = 신청기한, `url` = 상세조회URL, `phone` = 전화문의.
A missing key is `none`; reading a key with a default empty string is
`(field).getD ""`. -/
structure ServiceRecord where
  serviceName : Option String := none
  orgName : Option String := none
  orgType : Option String := none
  target : Option String := none
  content : Option String := none
  method : Option String := none
  period : Option String := none
  url : Option String := none
  phone : Option String := none
  deriving DecidableEq

/-- One entry of the `CATEGORIES` table: display name, icon, colors,
keyword list. -/
structure CatInfo where
  name : String
  icon : String
  color : String
  bg : String
  keywords : List String
  deriving DecidableEq

/-- The `CATEGORIES` dict of the source, as an association list in
declared (insertion) order — Python dicts iterate in insertion order. -/
def CATEGORIES : List (String × CatInfo) :=
  [("youth",
    { name := "청년", icon := "👨‍🎓", color := "#60a5fa", bg := "#1e3a5f",
      keywords := ["청년", "청소년", "대학생", "취업", "일자리", "창업", "20대", "30대"] }),
   ("senior",
    { name := "노인", icon := "👴", color := "#c084fc", bg := "#4a1d6a",
      keywords := ["노인", "어르신", "경로", "기초연금", "장기요양", "돌봄", "65세", "고령"] }),
   ("family",
    { name := "출산/육아", icon := "👶", color := "#f472b6", bg := "#831843",
      keywords := ["임산부", "출산", "육아", "양육", "아동", "영유아", "어린이", "임신", "신생아"] }),
   ("disabled",
    { name := "장애인", icon := "♿", color := "#4ade80", bg := "#14532d",
      keywords := ["장애인", "장애", "활동지원", "보조기기"] }),
   ("lowincome",
    { name := "저소득", icon := "🏠", color := "#fbbf24", bg := "#713f12",
      keywords := ["기초생활", "차상위", "긴급복지", "저소득", "기초수급", "생계급여"] }),
   ("business",
    { name := "소상공인", icon := "🏪", color := "#fb923c", bg := "#7c2d12",
      keywords := ["소상공인", "자영업", "소기업", "창업지원", "사업자"] }),
   ("etc",
    { name := "기타", icon := "📋", color := "#94a3b8", bg := "#334155",
      keywords := [] })]

/-- The `CATEGORY_ORDER` list of the source. -/
def CATEGORY_ORDER : List String :=
  ["youth", "senior", "family", "disabled", "lowincome", "business", "etc"]

/-- The search text of `categorize_service`:
`f"{name} {target} {content}"` over the three record fields. -/
def searchText (service : ServiceRecord) : String :=
  (service.serviceName.getD "") ++ " " ++
    (service.target.getD "") ++ " " ++ (service.content.getD "")

/-- The category scan loop of `categorize_service`: iterate the category
table in order, skip the `etc` entry, return the first category one of
whose keywords occurs in `text`; default `etc`. -/
def scanCategories : List (String × CatInfo) → String → String
  | [], _ => "etc"
  | (cat_id, cat_info) :: rest, text =>
    if cat_id = "etc" then scanCategories rest text
    else if cat_info.keywords.any (fun keyword => strIn keyword text) then cat_id
    else scanCategories rest text

/-- The function `categorize_service` of the source. -/
def categorize_service (service : ServiceRecord) : String :=
  scanCategories CATEGORIES (searchText service)

/-- The function `filter_local_services` of the source: keep records whose 소관기관명
contains 여주 or 경기도, or whose 소관기관유형 is 중앙행정기관 or 공공기관;
order preserved, each record tested once. -/
def filter_local_services : List ServiceRecord → List ServiceRecord
  | [] => []
  | svc :: rest =>
    let org_name := svc.orgName.getD ""
    let org_type := svc.orgType.getD ""
    let is_local :=
      if strIn "여주" org_name then true
      else if strIn "경기도" org_name then true
      else if org_type == "중앙행정기관" || org_type == "공공기관" then true
      else false
    if is_local then svc :: filter_local_services rest
    else filter_local_services rest

example : categorize_service { serviceName := some "청년 취업 지원금" } = "youth" := by decide

example :
    filter_local_services
      [{ orgName := some "여주시청" },
       { orgName := some "서울시청", orgType := some "지방자치단체" },
       { orgType := some "중앙행정기관" }] =
    [{ orgName := some "여주시청" }, { orgType := some "중앙행정기관" }] := by decide

/-- One entry of a per-category `items` list in the JSON payload of
`generate_html`. -/
structure Item where
  name : String
  org : String
  target : String
  content : String
  method : String
  period : String
  url : String
  phone : String
  deriving DecidableEq

/-- The item dict `generate_html` appends for one record: `target`
truncated to 100 characters, `content` to 200, `method` to 100 (empty when
the field is missing or empty, mirroring Python truthiness), `period`
defaulting to `상시` when missing or empty. -/
def mkItem (svc : ServiceRecord) : Item :=
  { name := svc.serviceName.getD ""
    org := svc.orgName.getD ""
    target :=
      match svc.target with
      | some s => if s = "" then "" else pyTake s 100
      | none => ""
    content :=
      match svc.content with
      | some s => if s = "" then "" else pyTake s 200
      | none => ""
    method :=
      match svc.method with
      | some s => if s = "" then "" else pyTake s 100
      | none => ""
    period :=
      match svc.period.getD "" with
      | "" => "상시"
      | p => p
    url := svc.url.getD ""
    phone :=
      match svc.phone.getD "" with
      | "" => ""
      | p => p }

/-- One step of the categorizing loop of `generate_html`:
`categorized[categorize_service(svc)].append(svc)`. -/
def addToCategory (m : String → List ServiceRecord) (svc : ServiceRecord) :
    String → List ServiceRecord :=
  fun c => if c = categorize_service svc then m c ++ [svc] else m c

/-- The `categorized` dict of `generate_html`: start every category at
`[]`, append each record to the list of its category. -/
def buildCategorized (services : List ServiceRecord) : String → List ServiceRecord :=
  services.foldl addToCategory (fun _ => [])

/-- The per-category value of the JSON payload: full `count`, `items`
capped at 15. -/
structure CatPayload where
  count : Nat
  items : List Item
  deriving DecidableEq

/-- The `json_data` payload of `generate_html` (sans the timestamp):
`total` and, for each category id of `CATEGORY_ORDER` in order, its count
and its first 15 records as items. -/
structure JsonData where
  total : Nat
  cats : List (String × CatPayload)
  deriving DecidableEq

/-- Builds `json_data` exactly as `generate_html` does: `total` is the
input length; each category of `CATEGORY_ORDER` gets
`count = len(categorized[cat_id])` and
`items = [mkItem svc for svc in categorized[cat_id][:15]]`. -/
def json_data (services : List ServiceRecord) : JsonData :=
  { total := services.length
    cats := CATEGORY_ORDER.map fun cat_id =>
      (cat_id,
        { count := (buildCategorized services cat_id).length
          items := ((buildCategorized services cat_id).take 15).map mkItem }) }

/-- The renderer `generate_html`, abstracted to its data content: the surrounding HTML
and script text is a fixed template; the record-dependent content is the
embedded JSON payload. -/
def generate_html (services : List ServiceRecord) : JsonData :=
  json_data services

/-- The parsed body of one page response: the `data` array and
`totalCount`, each possibly absent.  The empty dict `{}` returned on
failure has both absent. -/
structure PageData where
  data : Option (List ServiceRecord) := none
  totalCount : Option Nat := none

/-- Outcome of one HTTP GET + JSON decode: either a parsed body or a
raised exception (transport error, non-2xx status, decode error). -/
inductive FetchOutcome where
  | ok (p : PageData)
  | err (msg : String)

/-- The `{}` returned by `fetch_service_list` on a missing key or any
caught exception. -/
def emptyPage : PageData := {}

/-- The function `fetch_service_list` of the source, with the network as an explicit
oracle from page number to outcome: missing API key or any exception
yields `{}`; otherwise the parsed body. -/
def fetch_service_list (api_key : String) (transport : Nat → FetchOutcome)
    (page : Nat) : PageData :=
  if api_key = "" then emptyPage
  else
    match transport page with
    | .ok p => p
    | .err _ => emptyPage

/-- The paging loop of `fetch_all_services`, with pages-remaining fuel
(`range(1, max_pages + 1)`): stop when `data` is absent, when the returned
record list is empty, or once the accumulated count reaches
`totalCount` (defaulting to 0). -/
def fetchLoop (fetchPage : Nat → PageData) :
    Nat → Nat → List ServiceRecord → List ServiceRecord
  | 0, _, acc => acc
  | fuel + 1, page, acc =>
    let result := fetchPage page
    match result.data with
    | none => acc
    | some services =>
      if services = [] then acc
      else
        let acc' := acc ++ services
        let total := result.totalCount.getD 0
        if total ≤ acc'.length then acc'
        else fetchLoop fetchPage fuel (page + 1) acc'

/-- The function `fetch_all_services` of the source. -/
def fetch_all_services (fetchPage : Nat → PageData) (max_pages : Nat) :
    List ServiceRecord :=
  fetchLoop fetchPage max_pages 1 []

/-- The three WordPress credentials (`WP_URL`, `WP_USER`,
`WP_APP_PASSWORD`); an unset variable is the empty string. -/
structure WpCreds where
  WP_URL : String
  WP_USER : String
  WP_APP_PASSWORD : String
  deriving DecidableEq

/-- Outcome of the create-post HTTP request, as an oracle. -/
inductive NetResult where
  | success (link : String)
  | failure (msg : String)
  deriving DecidableEq

/-- The `post_data` JSON body `post_to_wordpress` submits; `categories`
and `featured_media` are added only for truthy (nonzero, present) ids. -/
structure PostData where
  title : String
  content : String
  status : String
  categories : Option (List Nat)
  featured_media : Option Nat
  deriving DecidableEq

/-- Observable effects of one `post_to_wordpress` call: the content
written to the fallback `index.html` (if any), whether the create-post
request was attempted and with which body, and the returned flag. -/
structure PostEffects where
  fileWritten : Option String
  networkAttempted : Bool
  postData : Option PostData
  published : Bool
  deriving DecidableEq

/-- The function `post_to_wordpress` of the source: if any credential is empty, write
the content to `index.html` and return `False` with no request; otherwise
submit the post and return `True` on success, `False` on a caught
exception. -/
def post_to_wordpress (creds : WpCreds) (net : NetResult)
    (title content : String) (category_id thumbnail_id : Option Nat) :
    PostEffects :=
  if !(creds.WP_URL ≠ "" ∧ creds.WP_USER ≠ "" ∧ creds.WP_APP_PASSWORD ≠ "" : Bool) then
    { fileWritten := some content, networkAttempted := false,
      postData := none, published := false }
  else
    let post_data : PostData :=
      { title := title, content := content, status := "publish"
        categories :=
          match category_id with
          | some i => if i = 0 then none else some [i]
          | none => none
        featured_media :=
          match thumbnail_id with
          | some i => if i = 0 then none else some i
          | none => none }
    match net with
    | .success _ =>
      { fileWritten := none, networkAttempted := true,
        postData := some post_data, published := true }
    | .failure _ =>
      { fileWritten := none, networkAttempted := true,
        postData := some post_data, published := false }

/-- The function `create_thumbnail` of the source, with the drawing library import and
the font loads as capability flags: either absent capability returns
`None` (no thumbnail); otherwise the image is saved at `output_path`.
The pixel-drawing calls have no observable effect beyond the saved file. -/
def create_thumbnail (pillowAvailable fontsAvailable : Bool)
    (counts : String → Nat) (output_path : String) : Option String :=
  if !pillowAvailable then none
  else if !fontsAvailable then none
  else some output_path

/-- The function `upload_media` of the source: credential gate, then the media POST as
an oracle yielding `(id, source_url)` or a caught failure. -/
def upload_media (creds : WpCreds) (uploadNet : Option (Nat × String))
    (file_path : String) : Option Nat × Option String :=
  if !(creds.WP_URL ≠ "" ∧ creds.WP_USER ≠ "" ∧ creds.WP_APP_PASSWORD ≠ "" : Bool) then
    (none, none)
  else
    match uploadNet with
    | some (i, u) => (some i, some u)
    | none => (none, none)

/-- The environment of one run of `main`: configuration, the network
oracles, the drawing/font capabilities, and the current date fields the
title uses. -/
structure Env where
  api_key : String
  transport : Nat → FetchOutcome
  creds : WpCreds
  pillow : Bool
  fonts : Bool
  uploadNet : Option (Nat × String)
  postNet : NetResult
  month : Nat
  day : Nat

/-- Observable effects of one run of `main`. -/
structure RunEffects where
  earlyExit : Bool
  indexHtmlWritten : Option JsonData
  thumbnailPath : Option String
  uploadAttempted : Bool
  postCalled : Bool
  postThumbnailId : Option Nat
  postResult : Option PostEffects
  deriving DecidableEq

/-- The iframe body `main` publishes. -/
def iframe_content (month day : Nat) : String :=
  "<iframe src=https://leekkyg.github.io/subsidy-bot/></iframe> ※ " ++
    toString month ++ "월 " ++ toString day ++ "일 기준 업데이트"

/-- The function `main` of the source: fetch 15 pages, filter to the locality; if
nothing remains, print the status line and return early (no render, no
write, no thumbnail, no publish); otherwise render and write `index.html`,
attempt the thumbnail, upload it only when produced, and publish with the
uploaded id (or none). -/
def main (env : Env) : RunEffects :=
  let all_services :=
    fetch_all_services (fetch_service_list env.api_key env.transport) 15
  let services := filter_local_services all_services
  if services = [] then
    { earlyExit := true, indexHtmlWritten := none, thumbnailPath := none,
      uploadAttempted := false, postCalled := false, postThumbnailId := none,
      postResult := none }
  else
    let counts := fun cat => (buildCategorized services cat).length
    let html_content := generate_html services
    let thumb_path := create_thumbnail env.pillow env.fonts counts "thumbnail.png"
    let title :=
      toString env.month ++ "월 정부 지원금·보조금 안내 (" ++
        toString services.length ++ "건)"
    let uploadOutcome :=
      match thumb_path with
      | some p => upload_media env.creds env.uploadNet p
      | none => (none, none)
    let thumb_id := uploadOutcome.1
    let post :=
      post_to_wordpress env.creds env.postNet title
        (iframe_content env.month env.day) (some 139) thumb_id
    { earlyExit := false
      indexHtmlWritten := some html_content
      thumbnailPath := thumb_path
      uploadAttempted := thumb_path.isSome
      postCalled := true
      postThumbnailId := thumb_id
      postResult := some post }

/-! ## Theorems -/

/-- The locality predicate of `filter_local_services`, as a single
boolean disjunction. -/
def isLocal (svc : ServiceRecord) : Bool :=
  strIn "여주" (svc.orgName.getD "") || strIn "경기도" (svc.orgName.getD "") ||
    (svc.orgType.getD "" == "중앙행정기관" || svc.orgType.getD "" == "공공기관")

/-- An `elif` chain of boolean guards all setting `True` is their
disjunction. -/
theorem elifChain (a b c : Bool) :
    (if a then true else if b then true else if c then true else false) =
      (a || b || c) := by
  cases a <;> cases b <;> cases c <;> rfl

/-- The accumulate-if-local loop is an order-preserving `List.filter`. -/
theorem filter_local_eq_filter (services : List ServiceRecord) :
    filter_local_services services = services.filter isLocal := by
  induction services with
  | nil => rfl
  | cons svc rest ih =>
    simp only [filter_local_services, List.filter_cons, ih, isLocal, elifChain]

/-- C2: `filter_local_services` returns exactly the order-preserving,
duplicate-free subsequence of records whose 소관기관명 contains 여주 or
경기도 or whose 소관기관유형 is 중앙행정기관 or 공공기관; on the
three-record example it returns the first and third records. -/
theorem filter_local_services_correct (services : List ServiceRecord) :
    filter_local_services services =
      services.filter (fun svc =>
        strIn "여주" (svc.orgName.getD "") || strIn "경기도" (svc.orgName.getD "") ||
          (svc.orgType.getD "" == "중앙행정기관" || svc.orgType.getD "" == "공공기관")) ∧
    filter_local_services
        [{ orgName := some "여주시청" },
         { orgName := some "서울시청", orgType := some "지방자치단체" },
         { orgType := some "중앙행정기관" }] =
      [{ orgName := some "여주시청" }, { orgType := some "중앙행정기관" }] :=
  ⟨filter_local_eq_filter services, by decide⟩

/-- C6: `filter_local_services` is idempotent. -/
theorem filter_local_services_idem (services : List ServiceRecord) :
    filter_local_services (filter_local_services services) =
      filter_local_services services := by
  rw [filter_local_eq_filter services, filter_local_eq_filter]
  simp [List.filter_filter]

/-- C3: with any of the three credentials empty, `post_to_wordpress`
writes the body to `index.html`, attempts no network request, and returns
`False`. -/
theorem post_to_wordpress_missing_creds (creds : WpCreds) (net : NetResult)
    (title content : String) (category_id thumbnail_id : Option Nat)
    (h : creds.WP_URL = "" ∨ creds.WP_USER = "" ∨ creds.WP_APP_PASSWORD = "") :
    post_to_wordpress creds net title content category_id thumbnail_id =
      { fileWritten := some content, networkAttempted := false,
        postData := none, published := false } := by
  unfold post_to_wordpress
  rcases h with h | h | h <;> simp [h]

/-- C3 witness: publishing with all three credentials empty writes the
body locally, attempts no network request, and reports not published. -/
theorem post_to_wordpress_missing_creds_witness :
    post_to_wordpress ⟨"", "", ""⟩ (.success "link") "t" "body" (some 139) none =
      { fileWritten := some "body", networkAttempted := false,
        postData := none, published := false } :=
  post_to_wordpress_missing_creds ⟨"", "", ""⟩ (.success "link") "t" "body"
    (some 139) none (Or.inl rfl)

/-- The keyword list of a category id in the `CATEGORIES` table. -/
def keywordsOf (cat_id : String) : List String :=
  match CATEGORIES.find? (fun p => p.1 == cat_id) with
  | some p => p.2.keywords
  | none => []

/-- A category matches a record when one of its keywords occurs (exact,
case-sensitive substring) in the search text of the record. -/
def catMatches (service : ServiceRecord) (cat_id : String) : Bool :=
  (keywordsOf cat_id).any fun kw => strIn kw (searchText service)

/-- Modelled from the words of the spec, for comparison with
`categorize_service`: the first category, in declared order with the
catch-all excluded, one of whose keywords is a substring of the search
text; `etc` when none matches. -/
def spec_first_match (service : ServiceRecord) : String :=
  match (CATEGORY_ORDER.filter (fun c => c != "etc")).find?
      (fun c => catMatches service c) with
  | some c => c
  | none => "etc"

/-- The keys of the `CATEGORIES` table, in declared order, are exactly
`CATEGORY_ORDER`. -/
theorem mapFst_CATEGORIES : CATEGORIES.map Prod.fst = CATEGORY_ORDER := rfl

/-- The category scan reduces to a six-condition decision chain over
`catMatches`. -/
theorem categorize_eq_ite (svc : ServiceRecord) :
    categorize_service svc =
      (if catMatches svc "youth" then "youth"
       else if catMatches svc "senior" then "senior"
       else if catMatches svc "family" then "family"
       else if catMatches svc "disabled" then "disabled"
       else if catMatches svc "lowincome" then "lowincome"
       else if catMatches svc "business" then "business"
       else "etc") := rfl

/-- The spec-side first-match scan reduces to the same decision chain. -/
theorem spec_first_match_eq_ite (svc : ServiceRecord) :
    spec_first_match svc =
      (if catMatches svc "youth" then "youth"
       else if catMatches svc "senior" then "senior"
       else if catMatches svc "family" then "family"
       else if catMatches svc "disabled" then "disabled"
       else if catMatches svc "lowincome" then "lowincome"
       else if catMatches svc "business" then "business"
       else "etc") := by
  have hfilter : CATEGORY_ORDER.filter (fun c => c != "etc") =
      ["youth", "senior", "family", "disabled", "lowincome", "business"] := rfl
  unfold spec_first_match
  rw [hfilter]
  cases h1 : catMatches svc "youth" <;>
    cases h2 : catMatches svc "senior" <;>
      cases h3 : catMatches svc "family" <;>
        cases h4 : catMatches svc "disabled" <;>
          cases h5 : catMatches svc "lowincome" <;>
            cases h6 : catMatches svc "business" <;>
              simp [List.find?, h1, h2, h3, h4, h5, h6]

/-- C1: `categorize_service` always returns a key of the `CATEGORIES`
table; it returns the first category in declared order (catch-all
excluded) with a substring-matching keyword; and it returns `etc` iff
no non-catch-all category has a matching keyword. -/
theorem categorize_service_correct (svc : ServiceRecord) :
    categorize_service svc ∈ CATEGORIES.map Prod.fst ∧
    categorize_service svc = spec_first_match svc ∧
    (categorize_service svc = "etc" ↔
      ∀ c ∈ CATEGORY_ORDER, c ≠ "etc" → catMatches svc c = false) := by
  rw [mapFst_CATEGORIES, categorize_eq_ite, spec_first_match_eq_ite]
  cases h1 : catMatches svc "youth" <;>
    cases h2 : catMatches svc "senior" <;>
      cases h3 : catMatches svc "family" <;>
        cases h4 : catMatches svc "disabled" <;>
          cases h5 : catMatches svc "lowincome" <;>
            cases h6 : catMatches svc "business" <;>
              simp [CATEGORY_ORDER, h1, h2, h3, h4, h5, h6]

/-- C1 witness: the example record of the spec categorizes as `youth`,
agreeing
with the declared-order first match, and is a key of the table. -/
theorem categorize_service_correct_witness :
    categorize_service { serviceName := some "청년 취업 지원금" } = "youth" ∧
    categorize_service { serviceName := some "청년 취업 지원금" } =
      spec_first_match { serviceName := some "청년 취업 지원금" } :=
  ⟨by decide, (categorize_service_correct { serviceName := some "청년 취업 지원금" }).2.1⟩

/-- The append-per-record grouping of `generate_html` is an
order-preserving filter by category. -/
theorem buildCategorized_eq_filter (services : List ServiceRecord) (c : String) :
    buildCategorized services c =
      services.filter (fun svc => categorize_service svc == c) := by
  suffices h : ∀ (l : List ServiceRecord) (m : String → List ServiceRecord)
      (c : String), l.foldl addToCategory m c =
        m c ++ l.filter (fun svc => categorize_service svc == c) by
    simpa [buildCategorized] using h services (fun _ => []) c
  intro l
  induction l with
  | nil => intro m c; simp
  | cons svc rest ih =>
    intro m c
    rw [List.foldl_cons, ih]
    by_cases hc : categorize_service svc = c
    · subst hc
      simp [addToCategory, List.filter_cons]
    · have hc' : ¬(c = categorize_service svc) := fun h' => hc h'.symm
      simp [addToCategory, List.filter_cons, hc, hc']

/-- The Python slice `s[:n]` yields at most `n` characters. -/
theorem pyTake_length_le (s : String) (n : Nat) : (pyTake s n).length ≤ n := by
  rw [pyTake, String.length_mk, List.length_take]
  exact Nat.min_le_left n s.data.length

/-- The truncated `target` item field never exceeds 100 characters. -/
theorem mkItem_target_le (svc : ServiceRecord) :
    (mkItem svc).target.length ≤ 100 := by
  simp only [mkItem]
  cases h : svc.target with
  | none => simp
  | some s =>
    by_cases hs : s = "" <;> simp [hs, pyTake_length_le]

/-- The truncated `content` item field never exceeds 200 characters. -/
theorem mkItem_content_le (svc : ServiceRecord) :
    (mkItem svc).content.length ≤ 200 := by
  simp only [mkItem]
  cases h : svc.content with
  | none => simp
  | some s =>
    by_cases hs : s = "" <;> simp [hs, pyTake_length_le]

/-- The truncated `method` item field never exceeds 100 characters. -/
theorem mkItem_method_le (svc : ServiceRecord) :
    (mkItem svc).method.length ≤ 100 := by
  simp only [mkItem]
  cases h : svc.method with
  | none => simp
  | some s =>
    by_cases hs : s = "" <;> simp [hs, pyTake_length_le]

/-- C4: in the payload `generate_html` builds, every category carries at
most 15 items; the item fields `target`/`content`/`method` are capped at
100/200/100 characters (cut at a character boundary); and the item field
`period` is the literal `상시` whenever the 신청기한 field of the record
is absent or empty. -/
theorem generate_html_payload_bounds (services : List ServiceRecord) :
    (∀ cp ∈ (generate_html services).cats,
        cp.2.items.length ≤ 15 ∧
        ∀ it ∈ cp.2.items,
          it.target.length ≤ 100 ∧ it.content.length ≤ 200 ∧
            it.method.length ≤ 100) ∧
    ∀ svc : ServiceRecord, (svc.period = none ∨ svc.period = some "") →
      (mkItem svc).period = "상시" := by
  constructor
  · intro cp hcp
    simp only [generate_html, json_data, List.mem_map] at hcp
    obtain ⟨cat_id, _, rfl⟩ := hcp
    constructor
    · simp only [List.length_map, List.length_take]
      exact le_trans (Nat.min_le_left _ _) (le_refl 15)
    · intro it hit
      simp only [List.mem_map] at hit
      obtain ⟨svc, _, rfl⟩ := hit
      exact ⟨mkItem_target_le svc, mkItem_content_le svc, mkItem_method_le svc⟩
  · intro svc h
    rcases h with h | h <;> simp [mkItem, h]

/-- C4 witness: the `youth` panel of the empty payload respects the cap,
and a record with no 신청기한 renders the period `상시`. -/
theorem generate_html_payload_bounds_witness :
    (({ count := 0, items := [] } : CatPayload)).items.length ≤ 15 ∧
    (mkItem { period := none }).period = "상시" :=
  ⟨((generate_html_payload_bounds []).1
      ("youth", { count := 0, items := [] }) (by decide)).1,
   (generate_html_payload_bounds []).2 { period := none } (Or.inl rfl)⟩

/-- Every record categorizes into a member of `CATEGORY_ORDER`. -/
theorem categorize_mem (svc : ServiceRecord) :
    categorize_service svc ∈ CATEGORY_ORDER := by
  rw [categorize_eq_ite]
  split_ifs <;> decide

/-- Summing over all category ids, each record is counted exactly once. -/
theorem indicator_sum (svc : ServiceRecord) :
    (CATEGORY_ORDER.map fun c =>
        if categorize_service svc == c then 1 else 0).sum = 1 := by
  have h := categorize_mem svc
  simp only [CATEGORY_ORDER, List.mem_cons, List.not_mem_nil, or_false] at h
  rcases h with h | h | h | h | h | h | h <;> rw [CATEGORY_ORDER, h] <;> decide

/-- Summing a pointwise sum of two maps splits. -/
theorem sum_map_addL {α : Type} (keys : List α) (f g : α → Nat) :
    (keys.map fun c => f c + g c).sum = (keys.map f).sum + (keys.map g).sum := by
  induction keys with
  | nil => simp
  | cons k ks ih => simp [List.map_cons, List.sum_cons, ih]; omega

/-- The per-category filter lengths over `CATEGORY_ORDER` partition the
record list. -/
theorem sum_filter_lengths (l : List ServiceRecord) :
    (CATEGORY_ORDER.map fun c =>
        (l.filter (fun svc => categorize_service svc == c)).length).sum =
      l.length := by
  induction l with
  | nil => simp
  | cons svc rest ih =>
    have hstep : ∀ c : String,
        (List.filter (fun s => categorize_service s == c) (svc :: rest)).length =
          (if categorize_service svc == c then 1 else 0) +
            (List.filter (fun s => categorize_service s == c) rest).length := by
      intro c
      by_cases hc : categorize_service svc = c <;>
        simp [List.filter_cons, hc] <;> omega
    simp only [hstep]
    rw [sum_map_addL, indicator_sum, ih]
    simp [Nat.add_comm]

/-- C9: the payload field `total` is the input length; every category id
of the declared order appears as a key; the `count` of each category is
the full
number of records categorized into it (not the capped items length); and
the per-category counts sum to `total`. -/
theorem payload_invariants (services : List ServiceRecord) :
    (json_data services).total = services.length ∧
    (json_data services).cats.map Prod.fst = CATEGORY_ORDER ∧
    (∀ cp ∈ (json_data services).cats,
        cp.2.count =
          (services.filter (fun svc => categorize_service svc == cp.1)).length) ∧
    ((json_data services).cats.map fun cp => cp.2.count).sum =
      (json_data services).total := by
  refine ⟨rfl, rfl, ?_, ?_⟩
  · intro cp hcp
    simp only [json_data, List.mem_map] at hcp
    obtain ⟨cat_id, _, rfl⟩ := hcp
    exact congrArg List.length (buildCategorized_eq_filter services cat_id)
  · simp only [json_data, List.map_map, Function.comp]
    simp only [buildCategorized_eq_filter]
    exact sum_filter_lengths services

/-- C9 witness: on the empty input, the count of the `youth` entry equals
the
number of records categorized as `youth`. -/
theorem payload_invariants_witness :
    (({ count := 0, items := [] } : CatPayload)).count =
      (List.filter (fun svc => categorize_service svc == "youth")
        ([] : List ServiceRecord)).length :=
  (payload_invariants []).2.2.1 ("youth", { count := 0, items := [] }) (by decide)

/-- A page whose response has no `data` key ends the paging loop with the
accumulator unchanged. -/
theorem fetchLoop_stop (fetchPage : Nat → PageData) (fuel page : Nat)
    (acc : List ServiceRecord) (h : (fetchPage page).data = none) :
    fetchLoop fetchPage (fuel + 1) page acc = acc := by
  simp [fetchLoop, h]

/-- C5: `fetch_service_list` never propagates an exception — a missing
API key or any transport/decoding failure yields the empty result — and
the loop of `fetch_all_services` treats the resulting missing-`data` page
as
end of paging, returning exactly the records accumulated so far. -/
theorem fetch_failure_containment (api_key : String)
    (transport : Nat → FetchOutcome) (fetchPage : Nat → PageData)
    (fuel page : Nat) (acc : List ServiceRecord) (e : String) :
    (api_key = "" → fetch_service_list api_key transport page = emptyPage) ∧
    (transport page = .err e →
      fetch_service_list api_key transport page = emptyPage) ∧
    ((fetchPage page).data = none →
      fetchLoop fetchPage (fuel + 1) page acc = acc) ∧
    (transport page = .err e →
      fetchLoop (fetch_service_list api_key transport) (fuel + 1) page acc = acc) := by
  refine ⟨fun h => by simp [fetch_service_list, h],
          fun h => ?_, fun h => fetchLoop_stop _ _ _ _ h, fun h => ?_⟩
  · unfold fetch_service_list
    by_cases hk : api_key = "" <;> simp [hk, h]
  · refine fetchLoop_stop _ _ _ _ ?_
    unfold fetch_service_list
    by_cases hk : api_key = "" <;> simp [hk, h, emptyPage]

/-- C5 witness: with every request failing, the paging loop returns
the empty accumulation and no exception escapes. -/
theorem fetch_failure_containment_witness :
    fetchLoop (fetch_service_list "key" (fun _ => .err "boom")) 4 1 [] = [] :=
  (fetch_failure_containment "key" (fun _ => .err "boom")
    (fun _ => emptyPage) 3 1 [] "boom").2.2.2 rfl

/-- C10: a page response with a non-empty `data` array but no
`totalCount` key makes the loop stop right after that page (the total
defaults to 0, so the accumulated count is immediately enough); when the
first page is such a response, `fetch_all_services` returns exactly that
one page of records, for any positive page cap. -/
theorem fetch_all_services_no_totalCount (fetchPage : Nat → PageData)
    (fuel page : Nat) (acc d : List ServiceRecord) (max_pages : Nat)
    (h : fetchPage page = { data := some d, totalCount := none })
    (hd : d ≠ [])
    (h1 : fetchPage 1 = { data := some d, totalCount := none })
    (hmp : 1 ≤ max_pages) :
    fetchLoop fetchPage (fuel + 1) page acc = acc ++ d ∧
    fetch_all_services fetchPage max_pages = d := by
  have hloop : ∀ (fl pg : Nat) (a : List ServiceRecord),
      fetchPage pg = { data := some d, totalCount := none } →
      fetchLoop fetchPage (fl + 1) pg a = a ++ d := by
    intro fl pg a hpg
    simp [fetchLoop, hpg, hd]
  refine ⟨hloop fuel page acc h, ?_⟩
  obtain ⟨k, rfl⟩ : ∃ k, max_pages = k + 1 :=
    ⟨max_pages - 1, (Nat.succ_pred_eq_of_pos hmp).symm⟩
  unfold fetch_all_services
  rw [hloop k 1 [] h1]
  rfl

/-- C10 witness: a constant response of one record with no `totalCount`
yields exactly that record once, despite a 15-page cap. -/
theorem fetch_all_services_no_totalCount_witness :
    fetch_all_services
        (fun _ => { data := some [{ orgName := some "여주시청" }],
                    totalCount := none })
        15 =
      [{ orgName := some "여주시청" }] :=
  (fetch_all_services_no_totalCount
    (fun _ => { data := some [{ orgName := some "여주시청" }], totalCount := none })
    0 1 [] [{ orgName := some "여주시청" }] 15 rfl (by decide) rfl
    (by decide)).2

/-- C7: when the locality filter leaves nothing, `main` short-circuits —
no rendering, no `index.html` write, no thumbnail, no publishing; when it
leaves records, the run renders, writes, and publishes no matter which
page, upload, or post requests fail. -/
theorem main_short_circuit_policy (env : Env) :
    (filter_local_services
        (fetch_all_services (fetch_service_list env.api_key env.transport) 15) =
          [] →
      main env =
        { earlyExit := true, indexHtmlWritten := none, thumbnailPath := none,
          uploadAttempted := false, postCalled := false,
          postThumbnailId := none, postResult := none }) ∧
    (filter_local_services
        (fetch_all_services (fetch_service_list env.api_key env.transport) 15) ≠
          [] →
      (main env).earlyExit = false ∧
      (main env).indexHtmlWritten =
        some (generate_html (filter_local_services
          (fetch_all_services (fetch_service_list env.api_key env.transport) 15))) ∧
      (main env).postCalled = true) := by
  constructor <;> intro h <;> simp [main, h]

/-- C7 witness: with no API key every fetch is empty, the filter returns
nothing, and the run exits early having done no work. -/
theorem main_short_circuit_policy_witness :
    main { api_key := "", transport := fun _ => .err "down",
           creds := ⟨"", "", ""⟩, pillow := false, fonts := false,
           uploadNet := none, postNet := .failure "x", month := 1, day := 2 } =
      { earlyExit := true, indexHtmlWritten := none, thumbnailPath := none,
        uploadAttempted := false, postCalled := false, postThumbnailId := none,
        postResult := none } :=
  (main_short_circuit_policy _).1 rfl

/-- The sample environment for the degraded-thumbnail run: the drawing
library is unavailable, one local record is fetched. -/
def env8 : Env :=
  { api_key := "key"
    transport := fun p =>
      if p = 1 then
        .ok { data := some [{ orgName := some "여주시청" }], totalCount := some 1 }
      else .err "no"
    creds := ⟨"", "", ""⟩
    pillow := false
    fonts := true
    uploadNet := none
    postNet := .failure "x"
    month := 3
    day := 4 }

/-- C8: with the drawing library or the fonts unavailable,
`create_thumbnail` returns `none` rather than raising, and a run that
gets past the filter still completes: it skips the media upload and calls
`post_to_wordpress` with no thumbnail id. -/
theorem create_thumbnail_degrades (env : Env) (counts : String → Nat)
    (path : String) (h : env.pillow = false ∨ env.fonts = false) :
    create_thumbnail env.pillow env.fonts counts path = none ∧
    ((main env).earlyExit = false →
      (main env).uploadAttempted = false ∧
      (main env).postThumbnailId = none ∧
      (main env).postCalled = true) := by
  have hthumb : ∀ (c : String → Nat) (p : String),
      create_thumbnail env.pillow env.fonts c p = none := by
    intro c p
    rcases h with h | h <;> simp [create_thumbnail, h]
  refine ⟨hthumb counts path, ?_⟩
  intro hne
  by_cases hsvc : filter_local_services
      (fetch_all_services (fetch_service_list env.api_key env.transport) 15) = []
  · simp [main, hsvc] at hne
  · simp [main, hsvc, hthumb]

/-- C8 witness: in `env8` (no drawing library) the thumbnail is `none`,
the upload is skipped, and the post is attempted with no thumbnail id. -/
theorem create_thumbnail_degrades_witness :
    create_thumbnail env8.pillow env8.fonts (fun _ => 0) "thumbnail.png" = none ∧
    ((main env8).uploadAttempted = false ∧
      (main env8).postThumbnailId = none ∧
      (main env8).postCalled = true) :=
  ⟨(create_thumbnail_degrades env8 (fun _ => 0) "thumbnail.png" (Or.inl rfl)).1,
   (create_thumbnail_degrades env8 (fun _ => 0) "thumbnail.png" (Or.inl rfl)).2 rfl⟩

end FetchSubsidy
